import Mathlib

/-!
Verification of the EEZ Studio docker-build tool (Electron app + docker-build-lib).

The development shallowly embeds the parts of the program the claims are about:

* `findAvailablePort` — the recursive TCP-port probe from `src/main/main.ts`
  (`findAvailablePort`), with the external "is this port occupied" outcome
  supplied as an oracle function and a fuel argument standing in for the
  unbounded recursion of the source.
* the test-server request handler from the `start-test-server` IPC handler:
  the cache-defeating middleware, the root-path console-capture injection
  (JavaScript `String.replace` with a string pattern, i.e. first-occurrence
  replacement), and the static-file fallback.
* `setupProject` / `extractBuild` from `scripts/docker-build-lib.ts`, as
  functions of an environment recording the outcome of each external
  docker/docker-compose command, returning an `Except` result together with
  a trace of the external actions performed (container creation/stop, clone,
  pull, copies, ...).
* the renderer workflow state machine from `src/renderer/renderer.js`
  (`runSetup` / `runBuild` / `runRebuild` / `runTest` / `runAll` /
  `stopTest` / the file-changed and dismiss handlers), as a step function on
  the renderer `state` object that also emits observations: status-badge
  transitions with the state snapshot at the moment of the transition, and
  stale-flag raises.
* the `abort-operation` IPC handler plus the 1-second escalation timeout it
  schedules, as a small supervisor state machine.

Local filesystem primitives of the host (fs.rm/mkdir/stat) are treated as
succeeding; every outcome of an external process is an oracle input.
-/

namespace DockerBuild

/-! ### Port allocation (`findAvailablePort`, src/main/main.ts)

The source recurses: try to `listen(startPort)`; on the listener's `error`
event resolve with `findAvailablePort(startPort + 1)`; on success read the
bound port back, close the probe listener, and resolve with that port.
`occupied p = true` models "the bind attempt on port `p` fails"; the `fuel`
argument bounds the recursion depth (the source recursion is unbounded; a
run that would exhaust any finite fuel never resolves). -/

def findAvailablePort (occupied : Nat → Bool) : Nat → Nat → Option Nat
  | 0, _ => none
  | fuel + 1, startPort =>
    if occupied startPort then findAvailablePort occupied fuel (startPort + 1)
    else some startPort

end DockerBuild

namespace DockerBuild

/-! ### Test server (`start-test-server` IPC handler, src/main/main.ts)

The handler installs (1) a middleware setting `Cache-Control: no-store,
no-cache, must-revalidate, private`, `Pragma: no-cache` and `Expires: 0` on
every response, (2) a `GET '/'` route that reads `outputPath/index.html` and
sends it with the console-capture script injected via
`html.replace('</head>', captureScript + '</head>')` — JavaScript
`String.replace` with a string pattern replaces only the FIRST occurrence
and returns the string unchanged when the pattern does not occur — falling
through to the next handler if the read fails, and (3) `express.static`
serving every other path from the output directory.

HTML content is modelled as `List Char`; the output directory as an
association list from file name to content; the injected capture script is
a parameter (its concrete JavaScript text never influences control flow).
A body of `none` models the 404 fall-through when no file matches. -/

/-- JavaScript `s.replace(pat, repl)` for a string pattern: replace the
first occurrence of `pat` (if any) by `repl`, leave `s` unchanged
otherwise. -/
def replaceFirst (pat repl : List Char) : List Char → List Char
  | [] => if pat.isPrefixOf ([] : List Char) then repl else []
  | c :: cs =>
    if pat.isPrefixOf (c :: cs) then repl ++ (c :: cs).drop pat.length
    else c :: replaceFirst pat repl cs

/-- The literal `'</head>'` pattern of the injection site. -/
def headCloseTag : List Char := "</head>".data

/-- Cache-defeating headers set by the `app.use` middleware on every
response. -/
def cacheHeaders : List (String × String) :=
  [("Cache-Control", "no-store, no-cache, must-revalidate, private"),
   ("Pragma", "no-cache"),
   ("Expires", "0")]

/-- `html.replace('</head>', captureScript + '</head>')` of the root
handler. -/
def injectCaptureScript (captureScript html : List Char) : List Char :=
  replaceFirst headCloseTag (captureScript ++ headCloseTag) html

/-- A request to the test server: the root path, or any other path (named by
the file it resolves to under the output directory). -/
inductive Request
  | root
  | file (name : String)

/-- An HTTP response of the test server: the headers set on it and its body
(`none` = 404 fall-through, no file matched). -/
structure HttpResponse where
  headers : List (String × String)
  body : Option (List Char)

/-- Look a file up in the output directory (association list from file name
to content). -/
def lookupFile (files : List (String × List Char)) (name : String) : Option (List Char) :=
  match files with
  | [] => none
  | (n, content) :: rest => if n = name then some content else lookupFile rest name

/-- The test server's request handling: the cache middleware runs first on
every request; `GET '/'` reads `index.html` and sends it with the capture
script injected before `</head>` (falling through to `express.static`,
which also finds no `index.html`, when the read fails); every other path is
served by `express.static` from the output directory. -/
def handleRequest (captureScript : List Char) (files : List (String × List Char)) :
    Request → HttpResponse
  | .root =>
    match lookupFile files "index.html" with
    | some html => { headers := cacheHeaders, body := some (injectCaptureScript captureScript html) }
    | none => { headers := cacheHeaders, body := none }
  | .file name =>
    match lookupFile files name with
    | some content => { headers := cacheHeaders, body := some content }
    | none => { headers := cacheHeaders, body := none }
end DockerBuild

namespace DockerBuild

/-! ### docker-build-lib (`scripts/docker-build-lib.ts`)

`setupProject` and `extractBuild` drive a sequence of external
docker/docker-compose commands. Each command's outcome is an oracle input
(`SetupEnv` / `ExtractEnv`); the functions return the `Except` result of
the TypeScript function (a thrown `Error` is `.error`) together with the
ordered trace of external steps performed. Commands whose results the
source ignores (`rm -rf /project/src && mkdir`, `find ... touch`,
`mkdir -p` for fonts, the manifest write, `docker stop`) appear in the
trace but cannot fail the stage; `createTempContainer` failing models
`docker-compose run -d` failing or emitting no container id, in which case
no helper container exists. Local fs operations (output-dir clean/create,
stat) are modelled as succeeding. -/

/-- Outcomes of the external commands issued by `setupProject`. `fontCopies`
holds, in declaration order, the `docker cp` outcome for each FreeType font
of `projectInfo.fonts` (the declared fonts themselves carry no further data
relevant to control flow). -/
structure SetupEnv where
  imageBuildOk : Bool
  markerProbeOk : Bool
  createContainerCloneOk : Bool
  cloneOk : Bool
  pullOk : Bool
  createContainerStep4Ok : Bool
  uiDirPresent : Bool
  uiDirExists : Bool
  copyUiOk : Bool
  fontCopies : List Bool

/-- External steps and stage-relevant log events of `setupProject`, in
execution order. -/
inductive SetupStep
  | buildImage
  | probeMarker
  | createContainer
  | gitClone
  | gitPull
  | warnPullFailed
  | prepareSrcDir
  | copyUi
  | touchSources
  | mkdirFonts
  | copyFont (i : Nat)
  | writeFontsManifest
  | stopContainer
  deriving DecidableEq

/-- Errors thrown by `setupProject`. -/
inductive SetupError
  | imageBuildFailed
  | tempContainerFailed
  | cloneFailed
  | uiDirMissing
  | uiDirNotFound
  | copyUiFailed
  | fontCopyFailed
  deriving DecidableEq

/-- The per-font copy loop: for each declared font the target directory is
created (result ignored) and the font is copied with `docker cp`; the first
failed copy aborts the loop (the caller then stops the container and
throws). Returns whether all copies succeeded and the trace of copy
attempts. -/
def copyFontsLoop : List Bool → Nat → Bool × List SetupStep
  | [], _ => (true, [])
  | ok :: rest, i =>
    if ok then
      let (r, t) := copyFontsLoop rest (i + 1)
      (r, SetupStep.copyFont i :: t)
    else (false, [SetupStep.copyFont i])

/-- Steps 4-6 of `setupProject` (shared by both branches): wipe and recreate
`/project/src`, validate and copy the UI directory, touch the sources,
copy fonts and write the manifest when fonts are declared, and stop the
helper container. `pre` is the trace accumulated before step 4 (ending with
the creation of the helper container in use). -/
def setupStep4 (env : SetupEnv) (pre : List SetupStep) :
    Except SetupError Unit × List SetupStep :=
  let t := pre ++ [SetupStep.prepareSrcDir]
  if !env.uiDirPresent then
    (.error .uiDirMissing, t ++ [SetupStep.stopContainer])
  else if !env.uiDirExists then
    (.error .uiDirNotFound, t ++ [SetupStep.stopContainer])
  else
    let t := t ++ [SetupStep.copyUi]
    if !env.copyUiOk then
      (.error .copyUiFailed, t ++ [SetupStep.stopContainer])
    else
      let t := t ++ [SetupStep.touchSources]
      if env.fontCopies.isEmpty then
        (.ok (), t ++ [SetupStep.stopContainer])
      else
        let t := t ++ [SetupStep.mkdirFonts]
        let fontsRun := copyFontsLoop env.fontCopies 0
        let t := t ++ fontsRun.2
        if fontsRun.1 then
          (.ok (), t ++ [SetupStep.writeFontsManifest, SetupStep.stopContainer])
        else
          (.error .fontCopyFailed, t ++ [SetupStep.stopContainer])

/-- `setupProject(projectInfo, config, log)`: build the image; probe the
volume for the pipeline marker file `/project/build.sh`; on probe failure
(first-time) create a helper container and `git clone --recursive` into the
volume, failing the stage hard if the clone fails; on probe success run
`git pull` via a throwaway `docker-compose run --rm` (a failure is only a
warning); then perform step 4 with a helper container (reusing the clone
branch's container, creating one otherwise). -/
def setupProject (env : SetupEnv) : Except SetupError Unit × List SetupStep :=
  let t := [SetupStep.buildImage]
  if !env.imageBuildOk then (.error .imageBuildFailed, t)
  else
    let t := t ++ [SetupStep.probeMarker]
    let projectAlreadySetup := env.markerProbeOk
    if !projectAlreadySetup then
      if !env.createContainerCloneOk then (.error .tempContainerFailed, t)
      else
        let t := t ++ [SetupStep.createContainer, SetupStep.gitClone]
        if !env.cloneOk then
          (.error .cloneFailed, t ++ [SetupStep.stopContainer])
        else
          setupStep4 env t
    else
      let t := t ++ [SetupStep.gitPull]
      let t := if !env.pullOk then t ++ [SetupStep.warnPullFailed] else t
      if !env.createContainerStep4Ok then (.error .tempContainerFailed, t)
      else
        setupStep4 env (t ++ [SetupStep.createContainer])

/-- Outcomes of the external commands issued by `extractBuild`. -/
structure ExtractEnv where
  createContainerOk : Bool
  copyHtmlOk : Bool
  copyJsOk : Bool
  copyWasmOk : Bool
  copyDataOk : Bool

/-- External steps and stage-relevant log events of `extractBuild`. -/
inductive ExtractStep
  | createContainer
  | copyAttempt (name : String)
  | skipOptional (name : String)
  | stopContainer
  deriving DecidableEq

/-- Errors thrown by `extractBuild`. -/
inductive ExtractError
  | tempContainerFailed
  | extractFailed (name : String)
  deriving DecidableEq

/-- The `for (const file of files)` loop of `extractBuild`: copy each file
out of `/project/build`; a failed copy of `index.data` is only logged and
skipped; a failed copy of any other file stops the container and throws. -/
def extractLoop : List (String × Bool) → Except ExtractError Unit × List ExtractStep
  | [] => (.ok (), [])
  | (name, ok) :: rest =>
    if ok then
      let (r, t) := extractLoop rest
      (r, ExtractStep.copyAttempt name :: t)
    else if name = "index.data" then
      let (r, t) := extractLoop rest
      (r, ExtractStep.copyAttempt name :: ExtractStep.skipOptional name :: t)
    else
      (.error (.extractFailed name),
       [ExtractStep.copyAttempt name, ExtractStep.stopContainer])

/-- The file list of `extractBuild` paired with the oracle outcome of each
`docker cp`. -/
def extractFiles (env : ExtractEnv) : List (String × Bool) :=
  [("index.html", env.copyHtmlOk), ("index.js", env.copyJsOk),
   ("index.wasm", env.copyWasmOk), ("index.data", env.copyDataOk)]

/-- `extractBuild(outputPath, config, log)`: clean and recreate the local
output directory (local fs, modelled as succeeding), create a helper
container, copy `index.html`, `index.js`, `index.wasm`, `index.data` out of
the volume (with `index.data` optional), and stop the container. -/
def extractBuild (env : ExtractEnv) : Except ExtractError Unit × List ExtractStep :=
  if !env.createContainerOk then (.error .tempContainerFailed, [])
  else
    let (r, t) := extractLoop (extractFiles env)
    match r with
    | .ok _ =>
      (.ok (), ExtractStep.createContainer :: (t ++ [ExtractStep.stopContainer]))
    | .error e => (.error e, ExtractStep.createContainer :: t)

end DockerBuild

namespace Renderer

/-! ### Renderer workflow state machine (src/renderer/renderer.js)

The renderer keeps the pipeline workflow in a module-level `state` object
(`setupComplete`, `buildComplete`, `testRunning`, `operationRunning`,
`fileChangedSinceSetup`, ...) plus three status badges
(`setupStatus`/`buildStatus`/`testStatus`, CSS classes `pending`,
`in-progress`, `completed`, `error`, `running`). The handlers
(`runSetup`, `runBuild`, `runRebuild`, `runTest`, `runAll`, `stopTest`,
the `file-changed` IPC listener and the notification buttons) are modelled
as functions of the state and of the boolean outcome of each awaited IPC
call. Alongside the final state each handler emits observations: one
`Obs.statusSet` per `setStatus` call in the handler body, carrying the
state snapshot at the moment of the call (the `updateUI` helper only ever
resets badges to `pending`, and only when no project is loaded; its badge
writes are not separately observed), and `Obs.staleRaised` when the
`file-changed` listener shows the rebuild notification. `hasProjectInfo`
models `state.projectInfo !== null`; presentation-only fields (button
disabling, tab switching, `outputPath`, `testUrl`, log text) are not
modelled. -/

/-- CSS class of a status badge (`setStatus(_, class, text)`). -/
inductive StatusBadge
  | pending
  | inProgress
  | completed
  | error
  | running
  deriving DecidableEq

/-- A pipeline stage of the renderer. -/
inductive Stage
  | setup
  | build
  | test
  deriving DecidableEq

/-- The workflow-relevant part of the renderer `state` object plus the
three badges. -/
structure AppState where
  hasProjectInfo : Bool
  setupComplete : Bool
  buildComplete : Bool
  testRunning : Bool
  operationRunning : Bool
  fileChangedSinceSetup : Bool
  notificationVisible : Bool
  setupStatus : StatusBadge
  buildStatus : StatusBadge
  testStatus : StatusBadge
  deriving DecidableEq

/-- Observations emitted while a handler runs: a `setStatus` call (with the
state snapshot at the moment of the call) or the raising of the stale
notification. -/
inductive Obs
  | statusSet (stage : Stage) (badge : StatusBadge) (snapshot : AppState)
  | staleRaised
  deriving DecidableEq

/-- `setStatus(stageStatus, class, text)`. -/
def setStage (stage : Stage) (b : StatusBadge) (s : AppState) : AppState :=
  match stage with
  | .setup => { s with setupStatus := b }
  | .build => { s with buildStatus := b }
  | .test => { s with testStatus := b }

/-- `updateUI()`: its only writes to the modelled state are resetting the
three badges to `pending` when no project is loaded (everything else it
touches is button enabling/disabling). -/
def updateUI (s : AppState) : AppState :=
  if s.operationRunning then s
  else if s.testRunning then s
  else if !s.hasProjectInfo then
    setStage .test .pending (setStage .build .pending (setStage .setup .pending s))
  else s

/-- `stopTest()`: stop the server, clear `testRunning`, reset the Test
badge, hide the test view, `updateUI()`. -/
def stopTest (s : AppState) : AppState :=
  updateUI (setStage .test .pending { s with testRunning := false })

/-- `runSetup()`: guarded by a loaded project; stops a running test,
re-reads the project file (`readOk` = outcome; on failure the handler
returns), marks Setup in-progress, awaits `setup-project` (`setupOk`),
and records the outcome. On success the stale flag and notification are
cleared and Build/Test reset to pending. -/
def runSetup (s : AppState) (readOk setupOk : Bool) : AppState × List Obs :=
  if !s.hasProjectInfo then (s, [])
  else
    let s := if s.testRunning then stopTest s else s
    if !readOk then (s, [])
    else
      let s := { s with operationRunning := true }
      let o1 := Obs.statusSet .setup .inProgress s
      let s := updateUI (setStage .setup .inProgress s)
      if setupOk then
        let s2 := { s with setupComplete := true, buildComplete := false, testRunning := false,
                           fileChangedSinceSetup := false, notificationVisible := false }
        let o2 := Obs.statusSet .setup .completed s2
        let s2 := setStage .setup .completed s2
        let o3 := Obs.statusSet .build .pending s2
        let s2 := setStage .build .pending s2
        let o4 := Obs.statusSet .test .pending s2
        let s2 := setStage .test .pending s2
        let s2 := { s2 with operationRunning := false }
        (updateUI s2, [o1, o2, o3, o4])
      else
        let s2 := { s with setupComplete := false }
        let o2 := Obs.statusSet .setup .error s2
        let s2 := setStage .setup .error s2
        let s2 := { s2 with operationRunning := false }
        (updateUI s2, [o1, o2])

/-- `runBuild()`: guarded by a loaded project AND `setupComplete`; stops a
running test, marks Build in-progress ('Building...'), awaits
`build-project` (`buildOk`), and records the outcome. -/
def runBuild (s : AppState) (buildOk : Bool) : AppState × List Obs :=
  if !s.hasProjectInfo || !s.setupComplete then (s, [])
  else
    let s := if s.testRunning then stopTest s else s
    let s := { s with operationRunning := true }
    let o1 := Obs.statusSet .build .inProgress s
    let s := updateUI (setStage .build .inProgress s)
    if buildOk then
      let s2 := { s with buildComplete := true, testRunning := false }
      let o2 := Obs.statusSet .build .completed s2
      let s2 := setStage .build .completed s2
      let o3 := Obs.statusSet .test .pending s2
      let s2 := setStage .test .pending s2
      let s2 := { s2 with operationRunning := false }
      (updateUI s2, [o1, o2, o3])
    else
      let s2 := { s with buildComplete := false }
      let o2 := Obs.statusSet .build .error s2
      let s2 := setStage .build .error s2
      let s2 := { s2 with operationRunning := false }
      (updateUI s2, [o1, o2])

/-- `runRebuild()`: guarded like `runBuild`; cleans the build directory
(`cleanOk`); a clean failure marks Build failed, otherwise `runBuild()` is
awaited. -/
def runRebuild (s : AppState) (cleanOk buildOk : Bool) : AppState × List Obs :=
  if !s.hasProjectInfo || !s.setupComplete then (s, [])
  else
    let s := if s.testRunning then stopTest s else s
    let s := { s with operationRunning := true }
    let o1 := Obs.statusSet .build .inProgress s
    let s := updateUI (setStage .build .inProgress s)
    if !cleanOk then
      let s2 := { s with buildComplete := false }
      let o2 := Obs.statusSet .build .error s2
      let s2 := setStage .build .error s2
      let s2 := { s2 with operationRunning := false }
      (updateUI s2, [o1, o2])
    else
      let (s2, os) := runBuild s buildOk
      (s2, o1 :: os)

/-- `runTest()`: guarded by a loaded project AND `buildComplete`; marks Test
in-progress ('Extracting...'), awaits `extract-build` (`extractOk`), then
'Starting server...' and `start-test-server` (`serverOk`); on success the
badge class is `completed` with text '✓ Running' and `testRunning` is
set. -/
def runTest (s : AppState) (extractOk serverOk : Bool) : AppState × List Obs :=
  if !s.hasProjectInfo || !s.buildComplete then (s, [])
  else
    let s := { s with operationRunning := true }
    let o1 := Obs.statusSet .test .inProgress s
    let s := updateUI (setStage .test .inProgress s)
    if !extractOk then
      let o2 := Obs.statusSet .test .error s
      let s2 := setStage .test .error s
      let s2 := { s2 with operationRunning := false }
      (updateUI s2, [o1, o2])
    else
      let o2 := Obs.statusSet .test .inProgress s
      let s2 := setStage .test .inProgress s
      if serverOk then
        let s3 := { s2 with testRunning := true }
        let o3 := Obs.statusSet .test .completed s3
        let s3 := setStage .test .completed s3
        let s3 := { s3 with operationRunning := false }
        (updateUI s3, [o1, o2, o3])
      else
        let o3 := Obs.statusSet .test .error s2
        let s3 := setStage .test .error s2
        let s3 := { s3 with operationRunning := false }
        (updateUI s3, [o1, o2, o3])

/-- `runAll()`: Setup → Build → Extract → Server-start as one operation,
aborting at the first failed step and leaving earlier statuses intact. -/
def runAll (s : AppState) (setupOk buildOk extractOk serverOk : Bool) :
    AppState × List Obs :=
  if !s.hasProjectInfo then (s, [])
  else
    let s := if s.testRunning then stopTest s else s
    let s := updateUI { s with operationRunning := true }
    let o1 := Obs.statusSet .setup .inProgress s
    let s := setStage .setup .inProgress s
    if !setupOk then
      let s2 := { s with setupComplete := false }
      let o2 := Obs.statusSet .setup .error s2
      let s2 := setStage .setup .error s2
      let s2 := { s2 with operationRunning := false }
      (updateUI s2, [o1, o2])
    else
      let s2 := { s with setupComplete := true, fileChangedSinceSetup := false,
                         notificationVisible := false }
      let o2 := Obs.statusSet .setup .completed s2
      let s2 := setStage .setup .completed s2
      let o3 := Obs.statusSet .build .inProgress s2
      let s2 := setStage .build .inProgress s2
      if !buildOk then
        let s3 := { s2 with buildComplete := false }
        let o4 := Obs.statusSet .build .error s3
        let s3 := setStage .build .error s3
        let s3 := { s3 with operationRunning := false }
        (updateUI s3, [o1, o2, o3, o4])
      else
        let s3 := { s2 with buildComplete := true }
        let o4 := Obs.statusSet .build .completed s3
        let s3 := setStage .build .completed s3
        let o5 := Obs.statusSet .test .inProgress s3
        let s3 := setStage .test .inProgress s3
        if !extractOk then
          let o6 := Obs.statusSet .test .error s3
          let s4 := setStage .test .error s3
          let s4 := { s4 with operationRunning := false }
          (updateUI s4, [o1, o2, o3, o4, o5, o6])
        else
          let o6 := Obs.statusSet .test .inProgress s3
          let s4 := setStage .test .inProgress s3
          if !serverOk then
            let o7 := Obs.statusSet .test .error s4
            let s5 := setStage .test .error s4
            let s5 := { s5 with operationRunning := false }
            (updateUI s5, [o1, o2, o3, o4, o5, o6, o7])
          else
            let s5 := { s4 with testRunning := true }
            let o7 := Obs.statusSet .test .running s5
            let s5 := setStage .test .running s5
            let s5 := { s5 with operationRunning := false }
            (updateUI s5, [o1, o2, o3, o4, o5, o6, o7])

/-- The `file-changed` IPC listener for a path under the UI source
directory (a path distinct from the project file): if Setup is complete
and no stale notification is pending, set the flag and show the
notification once; otherwise do nothing. -/
def fileChangedUi (s : AppState) : AppState × List Obs :=
  if s.setupComplete && !s.fileChangedSinceSetup then
    ({ s with fileChangedSinceSetup := true, notificationVisible := true }, [Obs.staleRaised])
  else (s, [])

/-- The notification's Dismiss button: hide the notification and clear the
flag, no pipeline action. -/
def dismiss (s : AppState) : AppState × List Obs :=
  ({ s with notificationVisible := false, fileChangedSinceSetup := false }, [])

/-- The notification's Rebuild button: stop a running test, hide the
notification, clear the flag, then `runAll()`. -/
def rebuildBanner (s : AppState) (setupOk buildOk extractOk serverOk : Bool) :
    AppState × List Obs :=
  let s := if s.testRunning then stopTest s else s
  let s := { s with notificationVisible := false, fileChangedSinceSetup := false }
  runAll s setupOk buildOk extractOk serverOk

/-- The renderer events under consideration, each carrying the oracle
outcomes of the IPC calls the handler awaits. -/
inductive Ev
  | setupEv (readOk setupOk : Bool)
  | buildEv (buildOk : Bool)
  | rebuildEv (cleanOk buildOk : Bool)
  | testEv (extractOk serverOk : Bool)
  | runAllEv (setupOk buildOk extractOk serverOk : Bool)
  | stopTestEv
  | uiFileChangedEv
  | dismissEv
  | rebuildBannerEv (setupOk buildOk extractOk serverOk : Bool)
  deriving DecidableEq

/-- One renderer event handled from state `s`. -/
def step (s : AppState) : Ev → AppState × List Obs
  | .setupEv readOk setupOk => runSetup s readOk setupOk
  | .buildEv buildOk => runBuild s buildOk
  | .rebuildEv cleanOk buildOk => runRebuild s cleanOk buildOk
  | .testEv extractOk serverOk => runTest s extractOk serverOk
  | .runAllEv a b c d => runAll s a b c d
  | .stopTestEv => (stopTest s, [])
  | .uiFileChangedEv => fileChangedUi s
  | .dismissEv => dismiss s
  | .rebuildBannerEv a b c d => rebuildBanner s a b c d

/-- Badge classes displayed for a stage that is currently executing. -/
def runningBadge : StatusBadge → Bool
  | .inProgress => true
  | .running => true
  | _ => false

/-- The stage-gating discipline claimed by the spec, checked at the moment
of each `setStatus` call: Build may only show a running badge when
`setupComplete` holds at that moment, Test only when `buildComplete`
holds. -/
def stageGateOk : Obs → Bool
  | .statusSet .build b snap => !runningBadge b || snap.setupComplete
  | .statusSet .test b snap => !runningBadge b || snap.buildComplete
  | _ => true

/-- Is an observation the raising of the stale notification? -/
def isStaleRaise : Obs → Bool
  | .staleRaised => true
  | _ => false

/-- Number of stale-notification raises among the observations. -/
def raiseCount (os : List Obs) : Nat := (os.filter isStaleRaise).length

/-- `n` consecutive UI-file watch events, with the total number of
notification raises. -/
def iterUiChanges (s : AppState) : Nat → AppState × Nat
  | 0 => (s, 0)
  | n + 1 =>
    let r1 := fileChangedUi s
    let r2 := iterUiChanges r1.1 n
    (r2.1, raiseCount r1.2 + r2.2)

end Renderer

namespace Supervisor

/-! ### Process supervisor abort path (`abort-operation` handler, src/main/main.ts)

`runDockerCommand` stores the spawned child in the module-level variable
`currentDockerProcess`. The `abort-operation` handler does, in order:
`currentDockerProcess.kill('SIGTERM')`; schedule a 1000 ms timeout whose
callback re-reads the module variable and runs
`if (currentDockerProcess && !currentDockerProcess.killed)
   currentDockerProcess.kill('SIGKILL')`;
set `currentDockerProcess = null`; return success. With no process tracked
it returns failure ('No operation running').

The model: `currentDockerProcess` is the module variable (pids are `Nat`);
`killedPids` records the pids whose Node `ChildProcess.killed` flag is set
(`killed` becomes true as soon as `kill()` is invoked, regardless of
whether the process has exited); `signals` logs every signal actually sent;
`escalationPending` is the scheduled timeout. Nothing in the model marks a
process as exited: the states below describe a child that ignores SIGTERM
and is still alive when the grace period elapses. -/

/-- A POSIX signal sent by the handler. -/
inductive Signal
  | sigterm
  | sigkill
  deriving DecidableEq

/-- Supervisor state: the `currentDockerProcess` module variable, the
Node-level `killed` flags, the log of delivered signals, and the pending
escalation timeout. -/
structure SupState where
  currentDockerProcess : Option Nat
  killedPids : List Nat
  signals : List (Nat × Signal)
  escalationPending : Bool
  deriving DecidableEq

/-- The `abort-operation` handler body. -/
def abortOperation (s : SupState) : SupState × Bool :=
  match s.currentDockerProcess with
  | some p =>
    ({ currentDockerProcess := none,
       killedPids := p :: s.killedPids,
       signals := s.signals ++ [(p, Signal.sigterm)],
       escalationPending := true }, true)
  | none => (s, false)

/-- The 1000 ms escalation callback scheduled by `abortOperation`: it
re-reads the module variable `currentDockerProcess` at fire time and sends
SIGKILL only when it holds a process whose `killed` flag is unset. -/
def escalationTimerFires (s : SupState) : SupState :=
  if s.escalationPending then
    match s.currentDockerProcess with
    | some q =>
      if q ∈ s.killedPids then { s with escalationPending := false }
      else
        { s with escalationPending := false,
                 killedPids := q :: s.killedPids,
                 signals := s.signals ++ [(q, Signal.sigkill)] }
    | none => { s with escalationPending := false }
  else s

/-- `runDockerCommand` spawning a new child and tracking it in
`currentDockerProcess`. -/
def startDockerCommand (s : SupState) (pid : Nat) : SupState :=
  { s with currentDockerProcess := some pid }

end Supervisor

namespace DockerBuild

theorem findAvailablePort_ge (occupied : Nat → Bool) (fuel start p : Nat)
    (h : findAvailablePort occupied fuel start = some p) :
    start ≤ p := by
  induction fuel generalizing start with
  | zero => simp [findAvailablePort] at h
  | succ n ih =>
    rw [findAvailablePort] at h
    by_cases hb : occupied start
    · rw [if_pos hb] at h
      exact Nat.le_of_succ_le (ih (start + 1) h)
    · rw [if_neg hb] at h
      exact Option.some.inj h ▸ Nat.le_refl _

theorem findAvailablePort_free (occupied : Nat → Bool) (fuel start p : Nat)
    (h : findAvailablePort occupied fuel start = some p) :
    occupied p = false := by
  induction fuel generalizing start with
  | zero => simp [findAvailablePort] at h
  | succ n ih =>
    rw [findAvailablePort] at h
    by_cases hb : occupied start
    · rw [if_pos hb] at h
      exact ih (start + 1) h
    · rw [if_neg hb] at h
      rw [← Option.some.inj h]
      exact Bool.eq_false_iff.mpr hb

theorem findAvailablePort_first (occupied : Nat → Bool) (fuel start p : Nat)
    (h : findAvailablePort occupied fuel start = some p) :
    ∀ q, start ≤ q → q < p → occupied q = true := by
  induction fuel generalizing start with
  | zero => simp [findAvailablePort] at h
  | succ n ih =>
    rw [findAvailablePort] at h
    by_cases hb : occupied start
    · rw [if_pos hb] at h
      intro q hq hqp
      rcases Nat.eq_or_lt_of_le hq with rfl | hlt
      · exact hb
      · exact ih (start + 1) h q hlt hqp
    · rw [if_neg hb] at h
      intro q hq hqp
      rw [← Option.some.inj h] at hqp
      exact absurd hqp (Nat.not_lt.mpr hq)

end DockerBuild

namespace DockerBuild

theorem replaceFirst_of_not_infix (pat repl : List Char) (s : List Char)
    (h : ¬ pat <:+: s) : replaceFirst pat repl s = s := by
  induction s with
  | nil =>
    rw [replaceFirst]
    rw [if_neg]
    intro hpre
    exact h (List.isPrefixOf_iff_prefix.mp hpre).isInfix
  | cons c cs ih =>
    rw [replaceFirst]
    rw [if_neg, ih]
    · intro hinf
      exact h (hinf.trans (List.infix_cons (List.infix_refl cs)))
    · intro hpre
      exact h (List.isPrefixOf_iff_prefix.mp hpre).isInfix

theorem replaceFirst_of_infix (pat repl : List Char) (s : List Char)
    (h : pat <:+: s) :
    ∃ a b, s = a ++ pat ++ b ∧ replaceFirst pat repl s = a ++ repl ++ b := by
  induction s with
  | nil =>
    obtain ⟨a, b, hab⟩ := h
    refine ⟨a, b, hab.symm, ?_⟩
    have ha : a = [] := by
      cases a with
      | nil => rfl
      | cons x xs => simp at hab
    have hp : pat = [] := by
      subst ha
      cases pat with
      | nil => rfl
      | cons x xs => simp at hab
    have hb : b = [] := by
      subst ha hp
      simpa using hab
    subst ha hp hb
    simp [replaceFirst, List.isPrefixOf]
  | cons c cs ih =>
    by_cases hpre : pat <+: (c :: cs)
    · obtain ⟨t, ht⟩ := hpre
      refine ⟨[], t, by simp [ht], ?_⟩
      rw [replaceFirst, if_pos (List.isPrefixOf_iff_prefix.mpr ⟨t, ht⟩)]
      have hdrop : (c :: cs).drop pat.length = t := by
        rw [← ht, List.drop_left]
      rw [hdrop]
      simp
    · have hinf : pat <:+: cs := by
        rcases List.infix_cons_iff.mp h with h' | h'
        · exact absurd h' hpre
        · exact h'
      obtain ⟨a, b, hab, hrep⟩ := ih hinf
      refine ⟨c :: a, b, by simp [hab], ?_⟩
      rw [replaceFirst, if_neg, hrep]
      · simp
      · intro hp
        exact hpre (List.isPrefixOf_iff_prefix.mp hp)

end DockerBuild

namespace DockerBuild

theorem copyFontsLoop_mem (l : List Bool) (i : Nat) (x : SetupStep)
    (hx : x ∈ (copyFontsLoop l i).2) : ∃ j, x = SetupStep.copyFont j := by
  induction l generalizing i with
  | nil => simp [copyFontsLoop] at hx
  | cons b rest ih =>
    rw [copyFontsLoop] at hx
    by_cases hb : b = true
    · subst hb
      simp only [if_pos rfl] at hx
      rcases List.mem_cons.mp hx with rfl | h
      · exact ⟨i, rfl⟩
      · exact ih (i + 1) h
    · rw [Bool.not_eq_true] at hb
      subst hb
      simp only [Bool.false_eq_true, if_false, List.mem_singleton] at hx
      exact ⟨i, hx⟩

theorem copyFontsLoop_all_ok (l : List Bool) (i : Nat)
    (h : ∀ b ∈ l, b = true) : (copyFontsLoop l i).1 = true := by
  induction l generalizing i with
  | nil => rfl
  | cons b rest ih =>
    have hb : b = true := h b (List.mem_cons_self b rest)
    subst hb
    rw [copyFontsLoop]
    simp only [if_pos rfl]
    exact ih (i + 1) fun b hb => h b (List.mem_cons_of_mem _ hb)

theorem copyFontsLoop_count_create (l : List Bool) (i : Nat) :
    (copyFontsLoop l i).2.count SetupStep.createContainer = 0 := by
  rw [List.count_eq_zero]
  intro h
  obtain ⟨j, hj⟩ := copyFontsLoop_mem l i _ h
  exact SetupStep.noConfusion hj

theorem copyFontsLoop_count_stop (l : List Bool) (i : Nat) :
    (copyFontsLoop l i).2.count SetupStep.stopContainer = 0 := by
  rw [List.count_eq_zero]
  intro h
  obtain ⟨j, hj⟩ := copyFontsLoop_mem l i _ h
  exact SetupStep.noConfusion hj

theorem setupStep4_count_create (env : SetupEnv) (pre : List SetupStep) :
    (setupStep4 env pre).2.count SetupStep.createContainer =
      pre.count SetupStep.createContainer := by
  rw [setupStep4]
  dsimp only
  split
  · simp
  · split
    · simp
    · split
      · simp
      · split
        · simp
        · split
          · simp [copyFontsLoop_count_create]
          · simp [copyFontsLoop_count_create]

theorem setupStep4_count_stop (env : SetupEnv) (pre : List SetupStep) :
    (setupStep4 env pre).2.count SetupStep.stopContainer =
      pre.count SetupStep.stopContainer + 1 := by
  rw [setupStep4]
  dsimp only
  split
  · simp
  · split
    · simp
    · split
      · simp
      · split
        · simp
        · split
          · simp [copyFontsLoop_count_stop]
          · simp [copyFontsLoop_count_stop]

theorem setupStep4_mem_of_not_new (env : SetupEnv) (pre : List SetupStep)
    (x : SetupStep) (hx : x ∈ (setupStep4 env pre).2)
    (h1 : x ≠ .prepareSrcDir) (h2 : x ≠ .stopContainer) (h3 : x ≠ .copyUi)
    (h4 : x ≠ .touchSources) (h5 : x ≠ .mkdirFonts)
    (h6 : x ≠ .writeFontsManifest) (h7 : ∀ j, x ≠ .copyFont j) :
    x ∈ pre := by
  rw [setupStep4] at hx
  dsimp only at hx
  have hfont : ∀ l i, x ∉ (copyFontsLoop l i).2 := by
    intro l i hmem
    obtain ⟨j, hj⟩ := copyFontsLoop_mem l i x hmem
    exact h7 j hj
  split at hx
  · rcases List.mem_append.mp hx with h | h
    · rcases List.mem_append.mp h with h | h
      · exact h
      · simp at h; exact absurd h h1
    · simp at h; exact absurd h h2
  · split at hx
    · rcases List.mem_append.mp hx with h | h
      · rcases List.mem_append.mp h with h | h
        · exact h
        · simp at h; exact absurd h h1
      · simp at h; exact absurd h h2
    · split at hx
      · rcases List.mem_append.mp hx with h | h
        · rcases List.mem_append.mp h with h | h
          · rcases List.mem_append.mp h with h | h
            · exact h
            · simp at h; exact absurd h h1
          · simp at h; exact absurd h h3
        · simp at h; exact absurd h h2
      · split at hx
        · rcases List.mem_append.mp hx with h | h
          · rcases List.mem_append.mp h with h | h
            · rcases List.mem_append.mp h with h | h
              · rcases List.mem_append.mp h with h | h
                · exact h
                · simp at h; exact absurd h h1
              · simp at h; exact absurd h h3
            · simp at h; exact absurd h h4
          · simp at h; exact absurd h h2
        · split at hx
          · rcases List.mem_append.mp hx with h | h
            · rcases List.mem_append.mp h with h | h
              · rcases List.mem_append.mp h with h | h
                · rcases List.mem_append.mp h with h | h
                  · rcases List.mem_append.mp h with h | h
                    · rcases List.mem_append.mp h with h | h
                      · exact h
                      · simp at h; exact absurd h h1
                    · simp at h; exact absurd h h3
                  · simp at h; exact absurd h h4
                · simp at h; exact absurd h h5
              · exact absurd (hfont _ _) (absurd h)
            · rcases List.mem_cons.mp h with h | h
              · exact absurd h h6
              · simp at h; exact absurd h h2
          · rcases List.mem_append.mp hx with h | h
            · rcases List.mem_append.mp h with h | h
              · rcases List.mem_append.mp h with h | h
                · rcases List.mem_append.mp h with h | h
                  · rcases List.mem_append.mp h with h | h
                    · rcases List.mem_append.mp h with h | h
                      · exact h
                      · simp at h; exact absurd h h1
                    · simp at h; exact absurd h h3
                  · simp at h; exact absurd h h4
                · simp at h; exact absurd h h5
              · exact absurd (hfont _ _) (absurd h)
            · simp at h; exact absurd h h2

end DockerBuild

namespace DockerBuild

theorem setupStep4_mem_of_mem_pre (env : SetupEnv) (pre : List SetupStep)
    (x : SetupStep) (hx : x ∈ pre) : x ∈ (setupStep4 env pre).2 := by
  rw [setupStep4]
  dsimp only
  split
  · simp [hx]
  · split
    · simp [hx]
    · split
      · simp [hx]
      · split
        · simp [hx]
        · split
          · simp [hx]
          · simp [hx]

theorem setupStep4_ok (env : SetupEnv) (pre : List SetupStep)
    (h1 : env.uiDirPresent = true) (h2 : env.uiDirExists = true)
    (h3 : env.copyUiOk = true) (h4 : ∀ b ∈ env.fontCopies, b = true) :
    (setupStep4 env pre).1 = .ok () := by
  rw [setupStep4]
  dsimp only
  rw [h1, h2, h3]
  simp only [Bool.not_true, Bool.false_eq_true, if_false]
  split
  · rfl
  · rw [if_pos (copyFontsLoop_all_ok env.fontCopies 0 h4)]

end DockerBuild

namespace Renderer

@[simp] theorem setStage_hasProjectInfo (st : Stage) (b : StatusBadge) (s : AppState) :
    (setStage st b s).hasProjectInfo = s.hasProjectInfo := by cases st <;> rfl

@[simp] theorem setStage_setupComplete (st : Stage) (b : StatusBadge) (s : AppState) :
    (setStage st b s).setupComplete = s.setupComplete := by cases st <;> rfl

@[simp] theorem setStage_buildComplete (st : Stage) (b : StatusBadge) (s : AppState) :
    (setStage st b s).buildComplete = s.buildComplete := by cases st <;> rfl

@[simp] theorem setStage_testRunning (st : Stage) (b : StatusBadge) (s : AppState) :
    (setStage st b s).testRunning = s.testRunning := by cases st <;> rfl

@[simp] theorem setStage_operationRunning (st : Stage) (b : StatusBadge) (s : AppState) :
    (setStage st b s).operationRunning = s.operationRunning := by cases st <;> rfl

@[simp] theorem setStage_fileChangedSinceSetup (st : Stage) (b : StatusBadge) (s : AppState) :
    (setStage st b s).fileChangedSinceSetup = s.fileChangedSinceSetup := by cases st <;> rfl

@[simp] theorem setStage_notificationVisible (st : Stage) (b : StatusBadge) (s : AppState) :
    (setStage st b s).notificationVisible = s.notificationVisible := by cases st <;> rfl

@[simp] theorem updateUI_hasProjectInfo (s : AppState) :
    (updateUI s).hasProjectInfo = s.hasProjectInfo := by
  rw [updateUI]; split_ifs <;> simp

@[simp] theorem updateUI_setupComplete (s : AppState) :
    (updateUI s).setupComplete = s.setupComplete := by
  rw [updateUI]; split_ifs <;> simp

@[simp] theorem updateUI_buildComplete (s : AppState) :
    (updateUI s).buildComplete = s.buildComplete := by
  rw [updateUI]; split_ifs <;> simp

@[simp] theorem updateUI_testRunning (s : AppState) :
    (updateUI s).testRunning = s.testRunning := by
  rw [updateUI]; split_ifs <;> simp

@[simp] theorem updateUI_operationRunning (s : AppState) :
    (updateUI s).operationRunning = s.operationRunning := by
  rw [updateUI]; split_ifs <;> simp

@[simp] theorem updateUI_fileChangedSinceSetup (s : AppState) :
    (updateUI s).fileChangedSinceSetup = s.fileChangedSinceSetup := by
  rw [updateUI]; split_ifs <;> simp

@[simp] theorem updateUI_notificationVisible (s : AppState) :
    (updateUI s).notificationVisible = s.notificationVisible := by
  rw [updateUI]; split_ifs <;> simp

theorem updateUI_of_hasProjectInfo (s : AppState) (h : s.hasProjectInfo = true) :
    updateUI s = s := by
  rw [updateUI]; split_ifs with h1 h2 h3
  · rfl
  · rfl
  · rw [h] at h3; simp at h3
  · rfl

@[simp] theorem stopTest_hasProjectInfo (s : AppState) :
    (stopTest s).hasProjectInfo = s.hasProjectInfo := by simp [stopTest]

@[simp] theorem stopTest_setupComplete (s : AppState) :
    (stopTest s).setupComplete = s.setupComplete := by simp [stopTest]

@[simp] theorem stopTest_buildComplete (s : AppState) :
    (stopTest s).buildComplete = s.buildComplete := by simp [stopTest]

@[simp] theorem stopTest_testRunning (s : AppState) :
    (stopTest s).testRunning = false := by simp [stopTest]

@[simp] theorem stopTest_fileChangedSinceSetup (s : AppState) :
    (stopTest s).fileChangedSinceSetup = s.fileChangedSinceSetup := by simp [stopTest]

@[simp] theorem stopTest_notificationVisible (s : AppState) :
    (stopTest s).notificationVisible = s.notificationVisible := by simp [stopTest]

theorem runSetup_gate (s : AppState) (readOk setupOk : Bool) :
    ∀ o ∈ (runSetup s readOk setupOk).2, stageGateOk o = true := by
  rw [runSetup]
  split
  · simp
  · dsimp only
    split
    · simp
    · split <;> (intro o ho; simp only [List.mem_cons, List.not_mem_nil, or_false] at ho) <;>
        rcases ho with rfl | rfl | rfl | rfl <;> simp [stageGateOk, runningBadge]

theorem runBuild_gate (s : AppState) (buildOk : Bool) :
    ∀ o ∈ (runBuild s buildOk).2, stageGateOk o = true := by
  rw [runBuild]
  split
  · simp
  · next hg =>
    have hs : s.setupComplete = true := by
      cases h : s.setupComplete
      · rw [h] at hg; simp at hg
      · rfl
    dsimp only
    split <;> (intro o ho; simp only [List.mem_cons, List.not_mem_nil, or_false] at ho) <;>
      rcases ho with rfl | rfl | rfl <;>
      simp [stageGateOk, runningBadge, hs, apply_ite AppState.setupComplete]

end Renderer

namespace Renderer

theorem runRebuild_gate (s : AppState) (cleanOk buildOk : Bool) :
    ∀ o ∈ (runRebuild s cleanOk buildOk).2, stageGateOk o = true := by
  rw [runRebuild]
  split
  · simp
  · next hg =>
    have hs : s.setupComplete = true := by
      cases h : s.setupComplete
      · rw [h] at hg; simp at hg
      · rfl
    dsimp only
    split
    · intro o ho
      simp only [List.mem_cons, List.not_mem_nil, or_false] at ho
      rcases ho with rfl | rfl <;>
        simp [stageGateOk, runningBadge, hs, apply_ite AppState.setupComplete]
    · intro o ho
      simp only [List.mem_cons] at ho
      rcases ho with rfl | ho
      · simp [stageGateOk, runningBadge, hs, apply_ite AppState.setupComplete]
      · exact runBuild_gate _ buildOk o ho

theorem runTest_gate (s : AppState) (extractOk serverOk : Bool) :
    ∀ o ∈ (runTest s extractOk serverOk).2, stageGateOk o = true := by
  rw [runTest]
  split
  · simp
  · next hg =>
    have hb : s.buildComplete = true := by
      cases h : s.buildComplete
      · rw [h] at hg; simp at hg
      · rfl
    dsimp only
    split
    · intro o ho
      simp only [List.mem_cons, List.not_mem_nil, or_false] at ho
      rcases ho with rfl | rfl <;>
        simp [stageGateOk, runningBadge, hb, apply_ite AppState.buildComplete]
    · split <;> (intro o ho; simp only [List.mem_cons, List.not_mem_nil, or_false] at ho) <;>
        rcases ho with rfl | rfl | rfl <;>
        simp [stageGateOk, runningBadge, hb, apply_ite AppState.buildComplete]

theorem runAll_gate (s : AppState) (a b c d : Bool) :
    ∀ o ∈ (runAll s a b c d).2, stageGateOk o = true := by
  rw [runAll]
  split
  · simp
  · dsimp only
    split
    · intro o ho
      simp only [List.mem_cons, List.not_mem_nil, or_false] at ho
      rcases ho with rfl | rfl <;> simp [stageGateOk, runningBadge]
    · split
      · intro o ho
        simp only [List.mem_cons, List.not_mem_nil, or_false] at ho
        rcases ho with rfl | rfl | rfl | rfl <;> simp [stageGateOk, runningBadge]
      · split
        · intro o ho
          simp only [List.mem_cons, List.not_mem_nil, or_false] at ho
          rcases ho with rfl | rfl | rfl | rfl | rfl | rfl <;>
            simp [stageGateOk, runningBadge]
        · split <;>
            (intro o ho; simp only [List.mem_cons, List.not_mem_nil, or_false] at ho) <;>
            rcases ho with rfl | rfl | rfl | rfl | rfl | rfl | rfl <;>
            simp [stageGateOk, runningBadge]

theorem step_gate (s : AppState) (e : Ev) :
    ∀ o ∈ (step s e).2, stageGateOk o = true := by
  cases e with
  | setupEv r k => exact runSetup_gate s r k
  | buildEv k => exact runBuild_gate s k
  | rebuildEv c k => exact runRebuild_gate s c k
  | testEv x y => exact runTest_gate s x y
  | runAllEv a b c d => exact runAll_gate s a b c d
  | stopTestEv => simp [step]
  | uiFileChangedEv =>
    rw [step, fileChangedUi]
    split <;> simp [stageGateOk]
  | dismissEv => simp [step, dismiss]
  | rebuildBannerEv a b c d => exact runAll_gate _ a b c d

end Renderer

namespace Renderer

theorem stopTest_setupStatus_of_info (s : AppState) (h : s.hasProjectInfo = true) :
    (stopTest s).setupStatus = s.setupStatus := by
  rw [stopTest, updateUI_of_hasProjectInfo _ (by simp [h])]
  rfl

theorem runBuild_fail_result (s : AppState) (hInfo : s.hasProjectInfo = true)
    (hSetup : s.setupComplete = true) :
    (runBuild s false).1 =
      { (if s.testRunning = true then stopTest s else s) with
        buildComplete := false, operationRunning := false,
        buildStatus := StatusBadge.error } := by
  rw [runBuild]
  rw [if_neg (by rw [hInfo, hSetup]; exact Bool.false_ne_true)]
  dsimp only
  rw [if_neg Bool.false_ne_true]
  dsimp only
  have hite : (if s.testRunning = true then stopTest s else s).hasProjectInfo = true := by
    split <;> simp [hInfo]
  rw [updateUI_of_hasProjectInfo _ (by simp [hite])]
  rw [updateUI_of_hasProjectInfo _ (by simp [hite])]
  rfl

theorem fileChangedUi_of_flag (s : AppState) (h : s.fileChangedSinceSetup = true) :
    fileChangedUi s = (s, []) := by
  rw [fileChangedUi, if_neg]
  simp [h]

theorem iterUiChanges_of_flag (s : AppState) (h : s.fileChangedSinceSetup = true) :
    ∀ n, iterUiChanges s n = (s, 0) := by
  intro n
  induction n with
  | zero => rfl
  | succ k ih =>
    simp only [iterUiChanges, fileChangedUi_of_flag s h, ih]
    rfl

end Renderer

/-- C8: every response of the test server carries the cache-defeating
headers (`no-store, no-cache, must-revalidate`); a GET on the root path,
when the artifact's `index.html` contains `'</head>'`, returns it rewritten
with the console-capture snippet inserted immediately before the
head-closing tag; every other path is served as the corresponding static
file from the output directory. -/
theorem C8_test_server_contract (captureScript : List Char)
    (files : List (String × List Char)) (req : DockerBuild.Request) :
    (DockerBuild.handleRequest captureScript files req).headers = DockerBuild.cacheHeaders ∧
    (∀ html, req = .root → DockerBuild.lookupFile files "index.html" = some html →
      DockerBuild.headCloseTag <:+: html →
      ∃ a b, html = a ++ DockerBuild.headCloseTag ++ b ∧
        (DockerBuild.handleRequest captureScript files req).body =
          some (a ++ captureScript ++ DockerBuild.headCloseTag ++ b)) ∧
    (∀ name, req = .file name →
      (DockerBuild.handleRequest captureScript files req).body =
        DockerBuild.lookupFile files name) := by
  refine ⟨?_, ?_, ?_⟩
  · cases req with
    | root =>
      cases hl : DockerBuild.lookupFile files "index.html" <;>
        simp [DockerBuild.handleRequest, hl]
    | file name =>
      cases hl : DockerBuild.lookupFile files name <;>
        simp [DockerBuild.handleRequest, hl]
  · rintro html rfl hl hinf
    obtain ⟨a, b, hab, hrep⟩ :=
      DockerBuild.replaceFirst_of_infix DockerBuild.headCloseTag
        (captureScript ++ DockerBuild.headCloseTag) html hinf
    refine ⟨a, b, hab, ?_⟩
    simp [DockerBuild.handleRequest, hl, DockerBuild.injectCaptureScript, hrep]
  · rintro name rfl
    cases hl : DockerBuild.lookupFile files name <;>
      simp [DockerBuild.handleRequest, hl]

/-- Witness for C8: a concrete output directory whose `index.html` is
`"<html><head></head><body></body></html>"`; the injected body splits around
the head-closing tag as the theorem states. -/
theorem C8_test_server_contract_witness :
    (DockerBuild.handleRequest "<s>".data [("index.html", "<html><head></head><body></body></html>".data)]
        DockerBuild.Request.root).headers = DockerBuild.cacheHeaders ∧
    (∀ html, DockerBuild.Request.root = .root →
      DockerBuild.lookupFile [("index.html", "<html><head></head><body></body></html>".data)]
          "index.html" = some html →
      DockerBuild.headCloseTag <:+: html →
      ∃ a b, html = a ++ DockerBuild.headCloseTag ++ b ∧
        (DockerBuild.handleRequest "<s>".data
            [("index.html", "<html><head></head><body></body></html>".data)]
            DockerBuild.Request.root).body =
          some (a ++ "<s>".data ++ DockerBuild.headCloseTag ++ b)) ∧
    (∀ name, DockerBuild.Request.root = .file name →
      (DockerBuild.handleRequest "<s>".data
          [("index.html", "<html><head></head><body></body></html>".data)]
          DockerBuild.Request.root).body =
        DockerBuild.lookupFile [("index.html", "<html><head></head><body></body></html>".data)] name) :=
  C8_test_server_contract "<s>".data
    [("index.html", "<html><head></head><body></body></html>".data)] DockerBuild.Request.root

/-- C10: the root handler injects by replacing only the first occurrence of
the literal `'</head>'`; when the artifact's `index.html` contains no
`'</head>'` substring, the root-path response body is the original file
content unchanged (no snippet, no error); on a file with two occurrences
only the first is rewritten. -/
theorem C10_root_no_head_tag_unchanged (captureScript : List Char)
    (files : List (String × List Char)) (html : List Char)
    (hl : DockerBuild.lookupFile files "index.html" = some html)
    (hno : ¬ DockerBuild.headCloseTag <:+: html) :
    (DockerBuild.handleRequest captureScript files .root).body = some html ∧
      DockerBuild.injectCaptureScript "X".data "A</head>B</head>".data =
        ("A" ++ "X" ++ "</head>" ++ "B</head>").data := by
  constructor
  · simp [DockerBuild.handleRequest, hl, DockerBuild.injectCaptureScript,
      DockerBuild.replaceFirst_of_not_infix _ _ html hno]
  · decide

/-- Witness for C10: a concrete `index.html` without any `'</head>'`
substring is served unchanged from the root path. -/
theorem C10_root_no_head_tag_unchanged_witness :
    (DockerBuild.handleRequest "<s>".data [("index.html", "<html><body></body></html>".data)]
        DockerBuild.Request.root).body = some "<html><body></body></html>".data ∧
      DockerBuild.injectCaptureScript "X".data "A</head>B</head>".data =
        ("A" ++ "X" ++ "</head>" ++ "B</head>").data :=
  C10_root_no_head_tag_unchanged "<s>".data
    [("index.html", "<html><body></body></html>".data)]
    "<html><body></body></html>".data (by decide) (by decide)

/-- C7: `findAvailablePort(startPort)` returns the first port at or above
`startPort` on which the probe listener binds: whenever it resolves with a
port `p`, binding on `p` succeeds, `p ≥ startPort`, and every port between
`startPort` and `p` failed to bind (each bind failure retried with the next
port number); in particular, starting from 3000 with exactly ports 3000 and
3001 occupied it returns 3002. -/
theorem C7_findAvailablePort_first_free (occupied : Nat → Bool) (fuel start p : Nat)
    (h : DockerBuild.findAvailablePort occupied fuel start = some p) :
    occupied p = false ∧ start ≤ p ∧ (∀ q, start ≤ q → q < p → occupied q = true) ∧
      DockerBuild.findAvailablePort (fun n => n == 3000 || n == 3001) 10 3000 = some 3002 :=
  ⟨DockerBuild.findAvailablePort_free occupied fuel start p h,
   DockerBuild.findAvailablePort_ge occupied fuel start p h,
   DockerBuild.findAvailablePort_first occupied fuel start p h,
   by decide⟩

/-- Witness for C7: instantiated at the occupancy pattern of the spec's
scenario (3000 and 3001 occupied), fuel 10, start 3000, result 3002. -/
theorem C7_findAvailablePort_first_free_witness :
    (fun n => n == 3000 || n == 3001) 3002 = false ∧ 3000 ≤ 3002 ∧
      (∀ q, 3000 ≤ q → q < 3002 → (fun n => n == 3000 || n == 3001) q = true) ∧
      DockerBuild.findAvailablePort (fun n => n == 3000 || n == 3001) 10 3000 = some 3002 :=
  C7_findAvailablePort_first_free (fun n => n == 3000 || n == 3001) 10 3000 3002 (by decide)

/-- C2: `setupProject` decides first-time vs already-set-up solely by the
marker-file probe (`test -f /project/build.sh` in the volume): whenever the
probe succeeds the run takes the pull/update branch and never executes the
clone command, and whenever the probe succeeds (and the image build before
it succeeded, so the probe is reached) the pull command is executed; the
clone command is executed only in runs where the probe failed. -/
theorem C2_marker_probe_decides_branch (env : DockerBuild.SetupEnv) :
    (env.markerProbeOk = true →
      DockerBuild.SetupStep.gitClone ∉ (DockerBuild.setupProject env).2) ∧
    (env.markerProbeOk = true → env.imageBuildOk = true →
      DockerBuild.SetupStep.gitPull ∈ (DockerBuild.setupProject env).2) ∧
    (DockerBuild.SetupStep.gitClone ∈ (DockerBuild.setupProject env).2 →
      env.markerProbeOk = false) := by
  have main : env.markerProbeOk = true →
      DockerBuild.SetupStep.gitClone ∉ (DockerBuild.setupProject env).2 := by
    intro hm hclone
    rw [DockerBuild.setupProject] at hclone
    cases h1 : env.imageBuildOk with
    | false => simp [h1] at hclone
    | true =>
      simp only [h1, hm, Bool.not_true, Bool.false_eq_true, if_false] at hclone
      cases h3 : env.createContainerStep4Ok with
      | false => simp [h3] at hclone; cases h4 : env.pullOk <;> simp [h4] at hclone
      | true =>
        simp only [h3, Bool.not_true, Bool.false_eq_true, if_false] at hclone
        have := DockerBuild.setupStep4_mem_of_not_new env _ _ hclone
          (by intro h; exact DockerBuild.SetupStep.noConfusion h)
          (by intro h; exact DockerBuild.SetupStep.noConfusion h)
          (by intro h; exact DockerBuild.SetupStep.noConfusion h)
          (by intro h; exact DockerBuild.SetupStep.noConfusion h)
          (by intro h; exact DockerBuild.SetupStep.noConfusion h)
          (by intro h; exact DockerBuild.SetupStep.noConfusion h)
          (by intro j h; exact DockerBuild.SetupStep.noConfusion h)
        cases h4 : env.pullOk <;> simp [h4] at this
  refine ⟨main, ?_, ?_⟩
  · intro hm h1
    rw [DockerBuild.setupProject]
    simp only [h1, hm, Bool.not_true, Bool.false_eq_true, if_false]
    cases h3 : env.createContainerStep4Ok with
    | false => cases h4 : env.pullOk <;> simp [h4]
    | true =>
      simp only [Bool.not_true, Bool.false_eq_true, if_false]
      apply DockerBuild.setupStep4_mem_of_mem_pre
      cases h4 : env.pullOk <;> simp [h4]
  · intro hclone
    cases hm : env.markerProbeOk with
    | false => rfl
    | true => exact absurd hclone (main hm)

/-- Witness for C2: a run over a volume whose marker probe succeeds (all
external commands succeeding, no fonts declared) never clones and does
pull. -/
theorem C2_marker_probe_decides_branch_witness :
    DockerBuild.SetupStep.gitClone ∉
      (DockerBuild.setupProject ⟨true, true, true, true, true, true, true, true, true, []⟩).2 ∧
    DockerBuild.SetupStep.gitPull ∈
      (DockerBuild.setupProject ⟨true, true, true, true, true, true, true, true, true, []⟩).2 := by
  have h := C2_marker_probe_decides_branch ⟨true, true, true, true, true, true, true, true, true, []⟩
  exact ⟨h.1 rfl, h.2.1 rfl rfl⟩

/-- C4: on the already-set-up branch a pull failure is non-fatal — the
"Git pull failed, continuing with existing code..." warning is logged and
Setup still completes successfully when the remaining steps succeed — while
on the first-time branch a clone failure makes `setupProject` throw
`'Git clone failed'`. -/
theorem C4_pull_nonfatal_clone_fatal (env : DockerBuild.SetupEnv) :
    (env.imageBuildOk = true → env.markerProbeOk = true → env.pullOk = false →
      env.createContainerStep4Ok = true → env.uiDirPresent = true →
      env.uiDirExists = true → env.copyUiOk = true →
      (∀ b ∈ env.fontCopies, b = true) →
      (DockerBuild.setupProject env).1 = .ok () ∧
        DockerBuild.SetupStep.warnPullFailed ∈ (DockerBuild.setupProject env).2) ∧
    (env.imageBuildOk = true → env.markerProbeOk = false →
      env.createContainerCloneOk = true → env.cloneOk = false →
      (DockerBuild.setupProject env).1 = .error .cloneFailed) := by
  constructor
  · intro h1 hm hp h3 hu1 hu2 hcp hf
    rw [DockerBuild.setupProject]
    simp only [h1, hm, hp, h3, Bool.not_true, Bool.not_false, Bool.false_eq_true, if_false,
      if_true]
    constructor
    · exact DockerBuild.setupStep4_ok env _ hu1 hu2 hcp hf
    · apply DockerBuild.setupStep4_mem_of_mem_pre
      simp
  · intro h1 hm h2 hc
    rw [DockerBuild.setupProject]
    simp [h1, hm, h2, hc]

/-- Witness for C4: a pull-failing already-set-up run still succeeds with
the warning logged, and a clone-failing first-time run throws. -/
theorem C4_pull_nonfatal_clone_fatal_witness :
    ((DockerBuild.setupProject ⟨true, true, true, true, false, true, true, true, true, []⟩).1 =
        .ok () ∧
      DockerBuild.SetupStep.warnPullFailed ∈
        (DockerBuild.setupProject ⟨true, true, true, true, false, true, true, true, true, []⟩).2) ∧
    (DockerBuild.setupProject ⟨true, false, true, false, true, true, true, true, true, []⟩).1 =
      .error .cloneFailed := by
  have hA := C4_pull_nonfatal_clone_fatal ⟨true, true, true, true, false, true, true, true, true, []⟩
  have hB := C4_pull_nonfatal_clone_fatal ⟨true, false, true, false, true, true, true, true, true, []⟩
  exact ⟨hA.1 rfl rfl rfl rfl rfl rfl rfl (by simp), hB.2 rfl rfl rfl rfl⟩

/-- C5: every execution of `setupProject` stops exactly as many helper
containers as it creates — the helper container is released on successful
completion and on every error path (clone failure, missing UI directory
path, UI directory not found, copy failure, font-copy failure) before the
function returns. -/
theorem C5_setup_releases_helper_container (env : DockerBuild.SetupEnv) :
    (DockerBuild.setupProject env).2.count DockerBuild.SetupStep.createContainer =
      (DockerBuild.setupProject env).2.count DockerBuild.SetupStep.stopContainer := by
  rw [DockerBuild.setupProject]
  cases h1 : env.imageBuildOk with
  | false => simp [h1]
  | true =>
    cases hm : env.markerProbeOk with
    | false =>
      simp only [h1, hm, Bool.not_false, Bool.not_true, Bool.false_eq_true, if_false, if_true]
      cases h2 : env.createContainerCloneOk with
      | false => simp
      | true =>
        simp only [Bool.not_true, Bool.false_eq_true, if_false]
        cases hc : env.cloneOk with
        | false => simp [hc]
        | true =>
          simp only [hc, Bool.not_true, Bool.false_eq_true, if_false]
          rw [DockerBuild.setupStep4_count_create, DockerBuild.setupStep4_count_stop]
          decide
    | true =>
      simp only [h1, hm, Bool.not_true, Bool.false_eq_true, if_false]
      cases h3 : env.createContainerStep4Ok with
      | false => cases h4 : env.pullOk <;> simp [h4]
      | true =>
        simp only [Bool.not_true, Bool.false_eq_true, if_false]
        rw [DockerBuild.setupStep4_count_create, DockerBuild.setupStep4_count_stop]
        cases h4 : env.pullOk <;> simp [h4]

/-- C6: `extractBuild` reports overall success when `index.html`,
`index.js` and `index.wasm` are all copied out of the volume's build output
even if `index.data` is absent (its absence is only logged and skipped);
it throws `'Failed to extract <file>'` whenever any of the three mandatory
files cannot be copied. -/
theorem C6_extract_optional_data (env : DockerBuild.ExtractEnv) :
    (env.createContainerOk = true → env.copyHtmlOk = true → env.copyJsOk = true →
      env.copyWasmOk = true →
      (DockerBuild.extractBuild env).1 = .ok () ∧
        (env.copyDataOk = false →
          DockerBuild.ExtractStep.skipOptional "index.data" ∈ (DockerBuild.extractBuild env).2)) ∧
    (env.createContainerOk = true →
      (env.copyHtmlOk = false →
        (DockerBuild.extractBuild env).1 = .error (.extractFailed "index.html")) ∧
      (env.copyHtmlOk = true → env.copyJsOk = false →
        (DockerBuild.extractBuild env).1 = .error (.extractFailed "index.js")) ∧
      (env.copyHtmlOk = true → env.copyJsOk = true → env.copyWasmOk = false →
        (DockerBuild.extractBuild env).1 = .error (.extractFailed "index.wasm"))) := by
  obtain ⟨c, fh, fj, fw, fd⟩ := env
  constructor
  · intro h1 h2 h3 h4
    subst h1 h2 h3 h4
    cases fd
    · exact ⟨rfl, fun _ => by decide⟩
    · exact ⟨rfl, fun h => by simp at h⟩
  · intro h1
    subst h1
    refine ⟨?_, ?_, ?_⟩
    · intro h2; subst h2; cases fj <;> cases fw <;> cases fd <;> rfl
    · intro h2 h3; subst h2 h3; cases fw <;> cases fd <;> rfl
    · intro h2 h3 h4; subst h2 h3 h4; cases fd <;> rfl

/-- Witness for C6: with the three mandatory copies succeeding and the
`index.data` copy failing, extract succeeds and logs the skip; with the
`index.wasm` copy failing, extract throws. -/
theorem C6_extract_optional_data_witness :
    ((DockerBuild.extractBuild ⟨true, true, true, true, false⟩).1 = .ok () ∧
      DockerBuild.ExtractStep.skipOptional "index.data" ∈
        (DockerBuild.extractBuild ⟨true, true, true, true, false⟩).2) ∧
    (DockerBuild.extractBuild ⟨true, true, true, false, true⟩).1 =
      .error (.extractFailed "index.wasm") := by
  have hA := C6_extract_optional_data ⟨true, true, true, true, false⟩
  have hB := C6_extract_optional_data ⟨true, true, true, false, true⟩
  exact ⟨⟨(hA.1 rfl rfl rfl rfl).1, (hA.1 rfl rfl rfl rfl).2 rfl⟩,
    (hB.2 rfl).2.2 rfl rfl rfl⟩

/-- C1: at every moment a handler sets a stage badge to a running class
(`in-progress`/`running`), Build's badge can only be set to it when
`setupComplete` holds at that instant, and Test's only when `buildComplete`
holds — for every state and every renderer event; moreover, from a state
with a loaded project, Setup complete and the Setup badge `completed`, a
failing Build leaves Build's badge `error`, `buildComplete` false, Setup's
state and badge unchanged (`setupComplete` still true, badge still
`completed`), and a subsequently attempted Test start is a no-op (the state
is unchanged and no status is set). -/
theorem C1_stage_gating (s : Renderer.AppState) (e : Renderer.Ev) :
    (∀ o ∈ (Renderer.step s e).2, Renderer.stageGateOk o = true) ∧
    (s.hasProjectInfo = true → s.setupComplete = true →
      s.setupStatus = .completed →
      (Renderer.step s (.buildEv false)).1.buildStatus = .error ∧
      (Renderer.step s (.buildEv false)).1.buildComplete = false ∧
      (Renderer.step s (.buildEv false)).1.setupComplete = true ∧
      (Renderer.step s (.buildEv false)).1.setupStatus = .completed ∧
      ∀ x y, Renderer.step (Renderer.step s (.buildEv false)).1 (.testEv x y) =
        ((Renderer.step s (.buildEv false)).1, [])) := by
  refine ⟨Renderer.step_gate s e, ?_⟩
  intro hInfo hSetup hBadge
  have hstep : Renderer.step s (.buildEv false) = Renderer.runBuild s false := rfl
  have hresult := Renderer.runBuild_fail_result s hInfo hSetup
  rw [hstep, hresult]
  refine ⟨rfl, rfl, ?_, ?_, ?_⟩
  · simp [apply_ite Renderer.AppState.setupComplete, hSetup]
  · show (if s.testRunning = true then Renderer.stopTest s else s).setupStatus = .completed
    rw [apply_ite Renderer.AppState.setupStatus]
    rw [Renderer.stopTest_setupStatus_of_info s hInfo]
    simp [hBadge]
  · intro x y
    show Renderer.runTest _ x y = _
    rw [Renderer.runTest, if_pos (by simp)]

/-- Witness for C1: the state after a successful Setup (project loaded,
Setup badge `completed`) followed by a failing Build; the attempted Test
start afterwards is a no-op. -/
theorem C1_stage_gating_witness :
    (Renderer.step ⟨true, true, false, false, false, false, false, .completed, .pending, .pending⟩
        (.buildEv false)).1.buildStatus = .error ∧
    (Renderer.step ⟨true, true, false, false, false, false, false, .completed, .pending, .pending⟩
        (.buildEv false)).1.buildComplete = false ∧
    (Renderer.step ⟨true, true, false, false, false, false, false, .completed, .pending, .pending⟩
        (.buildEv false)).1.setupComplete = true ∧
    (Renderer.step ⟨true, true, false, false, false, false, false, .completed, .pending, .pending⟩
        (.buildEv false)).1.setupStatus = .completed ∧
    Renderer.step
        (Renderer.step ⟨true, true, false, false, false, false, false, .completed, .pending, .pending⟩
          (.buildEv false)).1 (.testEv true true) =
      ((Renderer.step ⟨true, true, false, false, false, false, false, .completed, .pending, .pending⟩
          (.buildEv false)).1, []) := by
  have h :=
    (C1_stage_gating ⟨true, true, false, false, false, false, false, .completed, .pending, .pending⟩
      (.buildEv false)).2 rfl rfl rfl
  exact ⟨h.1, h.2.1, h.2.2.1, h.2.2.2.1, h.2.2.2.2 true true⟩

/-- C9: from any state with Setup complete and the stale flag down, a watch
event under the UI source directory raises the flag and shows the
notification exactly once; however many further watch events follow before
the flag is cleared, the state stays as after the first event and the total
number of raises over the whole burst is exactly one; the Dismiss button
clears the flag and hides the notification. -/
theorem C9_stale_flag_raised_once (s : Renderer.AppState) (n : Nat)
    (h1 : s.setupComplete = true) (h2 : s.fileChangedSinceSetup = false) :
    (Renderer.fileChangedUi s).2 = [Renderer.Obs.staleRaised] ∧
    (Renderer.fileChangedUi s).1.fileChangedSinceSetup = true ∧
    (Renderer.fileChangedUi s).1.notificationVisible = true ∧
    Renderer.iterUiChanges s (n + 1) = ((Renderer.fileChangedUi s).1, 1) ∧
    (Renderer.dismiss (Renderer.fileChangedUi s).1).1.fileChangedSinceSetup = false ∧
    (Renderer.dismiss (Renderer.fileChangedUi s).1).1.notificationVisible = false := by
  have hfc : Renderer.fileChangedUi s =
      ({ s with fileChangedSinceSetup := true, notificationVisible := true },
       [Renderer.Obs.staleRaised]) := by
    rw [Renderer.fileChangedUi, if_pos (by rw [h1, h2]; rfl)]
  refine ⟨by rw [hfc], by rw [hfc], by rw [hfc], ?_, by rw [hfc]; rfl, by rw [hfc]; rfl⟩
  simp only [Renderer.iterUiChanges, hfc]
  rw [Renderer.iterUiChanges_of_flag _ rfl n]
  rfl

/-- Witness for C9: a concrete ready state (Setup complete, flag down), a
burst of three watch events raising the notification exactly once, then
Dismiss clearing it. -/
theorem C9_stale_flag_raised_once_witness :
    (Renderer.fileChangedUi
        ⟨true, true, true, false, false, false, false, .completed, .completed, .pending⟩).2 =
      [Renderer.Obs.staleRaised] ∧
    (Renderer.fileChangedUi
        ⟨true, true, true, false, false, false, false, .completed, .completed, .pending⟩).1.fileChangedSinceSetup = true ∧
    (Renderer.fileChangedUi
        ⟨true, true, true, false, false, false, false, .completed, .completed, .pending⟩).1.notificationVisible = true ∧
    Renderer.iterUiChanges
        ⟨true, true, true, false, false, false, false, .completed, .completed, .pending⟩ 3 =
      ((Renderer.fileChangedUi
          ⟨true, true, true, false, false, false, false, .completed, .completed, .pending⟩).1, 1) ∧
    (Renderer.dismiss (Renderer.fileChangedUi
        ⟨true, true, true, false, false, false, false, .completed, .completed, .pending⟩).1).1.fileChangedSinceSetup = false ∧
    (Renderer.dismiss (Renderer.fileChangedUi
        ⟨true, true, true, false, false, false, false, .completed, .completed, .pending⟩).1).1.notificationVisible = false :=
  C9_stale_flag_raised_once
    ⟨true, true, true, false, false, false, false, .completed, .completed, .pending⟩ 2 rfl rfl

/-- C3 (code behaviour at the failing input): aborting a tracked child
(pid 1) that ignores SIGTERM and never exits sends it SIGTERM and reports
success, but when the 1-second grace period elapses the escalation callback
finds `currentDockerProcess` already nulled by the handler itself, so
SIGKILL is never sent to the aborted child — the promised SIGTERM→SIGKILL
escalation never happens; worse, if a new child (pid 2) was started before
the timeout fires, the callback SIGKILLs that fresh process instead. -/
theorem C3_abort_escalation_never_fires :
    ((Supervisor.abortOperation ⟨some 1, [], [], false⟩).2 = true ∧
      (1, Supervisor.Signal.sigterm) ∈
        (Supervisor.escalationTimerFires (Supervisor.abortOperation ⟨some 1, [], [], false⟩).1).signals ∧
      (1, Supervisor.Signal.sigkill) ∉
        (Supervisor.escalationTimerFires (Supervisor.abortOperation ⟨some 1, [], [], false⟩).1).signals) ∧
    ((2, Supervisor.Signal.sigkill) ∈
        (Supervisor.escalationTimerFires
          (Supervisor.startDockerCommand (Supervisor.abortOperation ⟨some 1, [], [], false⟩).1 2)).signals ∧
      (1, Supervisor.Signal.sigkill) ∉
        (Supervisor.escalationTimerFires
          (Supervisor.startDockerCommand (Supervisor.abortOperation ⟨some 1, [], [], false⟩).1 2)).signals) := by
  decide
